import Mathlib

/-!
Verification of the RIS Live BGP update pipeline (`src/lib.rs`, `src/parse.rs`):
JSON envelope decoding (serde-derived), event derivation (`BGPUpdate::from_message`)
and line rendering (`Display for BGPUpdate`), as a shallow embedding.

Machine integers are modelled as `Nat` with explicit range checks where the
source checks them; fallible Rust std / ipnet parsers are modelled as
`Option`-returning functions; Rust `.unwrap()` panics are modelled by the
`PanicOr` outcome type.
-/

set_option maxRecDepth 4000

/-! ## Character and digit utilities -/

/-- Decimal digit value of a character, `none` when not a digit. -/
def digitVal (c : Char) : Option Nat :=
  if '0' ≤ c ∧ c ≤ '9' then some (c.toNat - 48) else none

/-- Hexadecimal digit value of a character, `none` when not a hex digit. -/
def hexVal (c : Char) : Option Nat :=
  if '0' ≤ c ∧ c ≤ '9' then some (c.toNat - 48)
  else if 'a' ≤ c ∧ c ≤ 'f' then some (c.toNat - 87)
  else if 'A' ≤ c ∧ c ≤ 'F' then some (c.toNat - 55)
  else none

/-- Value of a nonempty list of decimal digits; `none` on empty input or a
non-digit character. -/
def decDigits (cs : List Char) : Option Nat :=
  match cs with
  | [] => none
  | _ :: _ =>
    cs.foldl (fun acc c =>
      match acc, digitVal c with
      | some a, some d => some (a * 10 + d)
      | _, _ => none) (some 0)

/-- Value of a nonempty list of hexadecimal digits; `none` on empty input or a
non-hex character. -/
def hexDigits (cs : List Char) : Option Nat :=
  match cs with
  | [] => none
  | _ :: _ =>
    cs.foldl (fun acc c =>
      match acc, hexVal c with
      | some a, some d => some (a * 16 + d)
      | _, _ => none) (some 0)

/-- Split a character list at every occurrence of a separator character,
keeping empty pieces (mirrors splitting a string on a one-character pattern). -/
def chSplit (sep : Char) : List Char → List (List Char)
  | [] => [[]]
  | c :: cs =>
    if c = sep then [] :: chSplit sep cs
    else
      match chSplit sep cs with
      | g :: gs => (c :: g) :: gs
      | [] => [[c]]

/-- Split a character list at every occurrence of the two-character separator
`"::"` (leftmost, non-overlapping), keeping empty pieces. -/
def splitDoubleColon : List Char → List (List Char)
  | [] => [[]]
  | ':' :: ':' :: cs => [] :: splitDoubleColon cs
  | c :: cs =>
    match splitDoubleColon cs with
    | g :: gs => (c :: g) :: gs
    | [] => [[c]]

/-- Split a character list at the first occurrence of a separator character,
returning the parts before and after it (mirrors Rust `str::split_once`). -/
def splitOnce (sep : Char) : List Char → Option (List Char × List Char)
  | [] => none
  | c :: cs =>
    if c = sep then some ([], cs)
    else
      match splitOnce sep cs with
      | some (a, b) => some (c :: a, b)
      | none => none

/-! ## Rust unsigned-integer parsing

`u32::from_str_radix(s, 10)` (and `u8::from_str`, used by `ipnet` for prefix
lengths) accept an optional leading `+` sign followed by at least one decimal
digit; the minus-sign branch of `from_str_radix` is gated on the type being
signed, so for an unsigned target a leading `-` is left in the digit string
and fails as an invalid digit, and an out-of-range value is rejected by the
checked arithmetic. -/

/-- Rust `from_str_radix` in base 10 for an unsigned integer type whose
exclusive upper bound is `bound`. -/
def rustParseUnsigned (bound : Nat) (s : String) : Option Nat :=
  match s.data with
  | [] => none
  | c :: cs =>
    let body : List Char := if c = '+' then cs else c :: cs
    match decDigits body with
    | none => none
    | some v => if v < bound then some v else none

/-- `u32::from_str_radix(s, 10)`. -/
def parseU32Radix10 (s : String) : Option Nat :=
  rustParseUnsigned (2 ^ 32) s

/-- `u8::from_str(s)` (base 10), as used for CIDR prefix lengths. -/
def parseU8Dec (s : String) : Option Nat :=
  rustParseUnsigned (2 ^ 8) s

/-! ## IP address parsing (Rust `std::net`) -/

/-- An IPv4 address as four octets. -/
structure Ipv4Addr where
  a : Nat
  b : Nat
  c : Nat
  d : Nat
deriving DecidableEq, Repr

/-- An IPv6 address as its eight 16-bit groups. -/
structure Ipv6Addr where
  segs : List Nat
deriving DecidableEq, Repr

/-- `std::net::IpAddr`. -/
inductive IpAddr where
  | v4 (addr : Ipv4Addr)
  | v6 (addr : Ipv6Addr)
deriving DecidableEq, Repr

/-- One dotted-quad octet: one to three decimal digits, no leading zero,
value at most 255 (Rust's IPv4 octet grammar). -/
def parseOctet (cs : List Char) : Option Nat :=
  if cs.length = 0 ∨ 3 < cs.length then none
  else if cs.length > 1 ∧ cs.head? = some '0' then none
  else
    match decDigits cs with
    | some v => if v ≤ 255 then some v else none
    | none => none

/-- `Ipv4Addr::from_str`: exactly four octets separated by `.`. -/
def parseIpv4 (s : String) : Option Ipv4Addr :=
  match (chSplit '.' s.data).mapM parseOctet with
  | some [a, b, c, d] => some ⟨a, b, c, d⟩
  | _ => none

/-- One IPv6 group: one to four hexadecimal digits (leading zeros allowed). -/
def parseHexGroup (cs : List Char) : Option Nat :=
  if cs.length = 0 ∨ 4 < cs.length then none
  else hexDigits cs

/-- Parse a colon-separated piece list into 16-bit groups; when `v4Last` is
set the final piece may instead be an embedded dotted-quad IPv4 address,
contributing the last two groups. -/
def parseGroups (v4Last : Bool) : List (List Char) → Option (List Nat)
  | [] => some []
  | [p] =>
    match parseHexGroup p with
    | some g => some [g]
    | none =>
      if v4Last then
        match parseIpv4 (String.mk p) with
        | some q => some [q.a * 256 + q.b, q.c * 256 + q.d]
        | none => none
      else none
  | p :: rest =>
    match parseHexGroup p with
    | some g =>
      match parseGroups v4Last rest with
      | some gs => some (g :: gs)
      | none => none
    | none => none

/-- `Ipv6Addr::from_str`: eight groups, or fewer with a single `::` standing
for at least one zero group; an embedded IPv4 address may supply the final
32 bits. -/
def parseIpv6 (s : String) : Option Ipv6Addr :=
  match splitDoubleColon s.data with
  | [whole] =>
    match parseGroups true (chSplit ':' whole) with
    | some gs => if gs.length = 8 then some ⟨gs⟩ else none
    | none => none
  | [h, t] =>
    let headGroups : Option (List Nat) :=
      if h.isEmpty then some [] else parseGroups false (chSplit ':' h)
    let tailGroups : Option (List Nat) :=
      if t.isEmpty then some [] else parseGroups true (chSplit ':' t)
    match headGroups, tailGroups with
    | some hg, some tg =>
      if hg.length + tg.length ≤ 7 then
        some ⟨hg ++ List.replicate (8 - hg.length - tg.length) 0 ++ tg⟩
      else none
    | _, _ => none
  | _ => none

/-- `IpAddr::from_str`: the IPv4 and IPv6 grammars are disjoint, so trying
IPv4 first and then IPv6 matches the std parser. -/
def parseIpAddr (s : String) : Option IpAddr :=
  match parseIpv4 s with
  | some a => some (.v4 a)
  | none =>
    match parseIpv6 s with
    | some a => some (.v6 a)
    | none => none

/-! ## CIDR network parsing (`ipnet` crate) -/

/-- `ipnet::IpNet`: an address together with a prefix length. -/
inductive IpNet where
  | v4 (addr : Ipv4Addr) (len : Nat)
  | v6 (addr : Ipv6Addr) (len : Nat)
deriving DecidableEq, Repr

/-- `Ipv4Net::from_str`: split at the first `/`, parse an IPv4 address and a
`u8` prefix length of at most 32. -/
def parseIpv4Net (s : String) : Option IpNet :=
  match splitOnce '/' s.data with
  | none => none
  | some (addrPart, lenPart) =>
    match parseIpv4 (String.mk addrPart), parseU8Dec (String.mk lenPart) with
    | some a, some l => if l ≤ 32 then some (.v4 a l) else none
    | _, _ => none

/-- `Ipv6Net::from_str`: split at the first `/`, parse an IPv6 address and a
`u8` prefix length of at most 128. -/
def parseIpv6Net (s : String) : Option IpNet :=
  match splitOnce '/' s.data with
  | none => none
  | some (addrPart, lenPart) =>
    match parseIpv6 (String.mk addrPart), parseU8Dec (String.mk lenPart) with
    | some a, some l => if l ≤ 128 then some (.v6 a l) else none
    | _, _ => none

/-- `IpNet::from_str`: try the IPv4 network grammar, then the IPv6 one. -/
def parseIpNet (s : String) : Option IpNet :=
  match parseIpv4Net s with
  | some n => some n
  | none => parseIpv6Net s

/-! ## Display for addresses and networks -/

/-- Decimal rendering of a natural number (Rust `u32: Display`). -/
def natStr (n : Nat) : String :=
  Nat.repr n

/-- `Ipv4Addr: Display`: dotted quad. -/
def ipv4Str (a : Ipv4Addr) : String :=
  natStr a.a ++ "." ++ natStr a.b ++ "." ++ natStr a.c ++ "." ++ natStr a.d

/-- Lowercase hexadecimal rendering without leading zeros. -/
def hexStr (n : Nat) : String :=
  String.mk (Nat.toDigits 16 n)

/-- Longest (leftmost on ties) run of zero groups: returns
`(start, length)` of the best run, scanning with an accumulator. -/
def zeroRunAux : List Nat → Nat → Nat × Nat → Nat × Nat → Nat × Nat
  | [], _, cur, best => if cur.2 > best.2 then cur else best
  | g :: gs, i, cur, best =>
    if g = 0 then
      let cur' := if cur.2 = 0 then (i, 1) else (cur.1, cur.2 + 1)
      zeroRunAux gs (i + 1) cur' best
    else
      let best' := if cur.2 > best.2 then cur else best
      zeroRunAux gs (i + 1) (0, 0) best'

/-- Longest leftmost run of zero groups in a group list. -/
def zeroRun (gs : List Nat) : Nat × Nat :=
  zeroRunAux gs 0 (0, 0) (0, 0)

/-- `Ipv6Addr: Display`: IPv4-mapped addresses render as `::ffff:a.b.c.d`;
otherwise the longest run of two or more zero groups is compressed to `::`,
groups in lowercase hex without leading zeros. -/
def ipv6Str (addr : Ipv6Addr) : String :=
  match addr.segs with
  | [0, 0, 0, 0, 0, 0xffff, g, h] =>
    "::ffff:" ++ ipv4Str ⟨g / 256, g % 256, h / 256, h % 256⟩
  | segs =>
    let run := zeroRun segs
    if run.2 ≥ 2 then
      let before := segs.take run.1
      let after := segs.drop (run.1 + run.2)
      String.intercalate ":" (before.map hexStr) ++ "::" ++
        String.intercalate ":" (after.map hexStr)
    else
      String.intercalate ":" (segs.map hexStr)

/-- `IpAddr: Display`. -/
def ipAddrStr : IpAddr → String
  | .v4 a => ipv4Str a
  | .v6 a => ipv6Str a

/-- `IpNet: Display`: `addr/len`. -/
def ipNetStr : IpNet → String
  | .v4 a l => ipv4Str a ++ "/" ++ natStr l
  | .v6 a l => ipv6Str a ++ "/" ++ natStr l

/-! ## Data model (`src/parse.rs`) -/

/-- `parse.rs` `AnnouncementEntry`: JSON format for a particular announcement. -/
structure AnnouncementEntry where
  next_hop : String
  prefixes : List String
deriving DecidableEq, Repr

/-- `parse.rs` `RISAnnouncement`: JSON format for a set of announcements. -/
structure RISAnnouncement where
  path : Option (List Nat)
  community : Option (List (List Nat))
  origin : Option String
  announcements : Option (List AnnouncementEntry)
deriving DecidableEq, Repr

/-- `parse.rs` `RISMessageType`: kinds of BGP messages; `UPDATE` is the only
variant. The `announce` field is flattened into the same JSON object, and
`withdrawals` is optional. -/
inductive RISMessageType where
  | UPDATE (announce : RISAnnouncement) (withdrawals : Option (List String))
deriving DecidableEq, Repr

/-- `parse.rs` `RISMessage`: the RIS Live JSON message format. -/
structure RISMessage where
  timestamp : Float
  peer : String
  peer_asn : String
  id : String
  host : String
  ty : RISMessageType

/-- `parse.rs` `RISPacket`: some RIS Live JSON packet; `ris_message` is the
only recognized variant (adjacently tagged by `type`/`data`). -/
inductive RISPacket where
  | message (m : RISMessage)

/-! ## JSON values and the serde-derived decoder

`serde_json` deserialization of the `parse.rs` types, modelled at the level of
JSON values (the purely textual JSON lexer/parser is not repository code).
JSON numbers are integers or floats, as `serde_json` distinguishes them.
All decode failures are returned errors; serde never panics. -/

/-- A JSON number: `serde_json` keeps integers and floats apart. -/
inductive JNum where
  | int (i : Int)
  | float (f : Float)

/-- A JSON value. -/
inductive Json where
  | null
  | bool (b : Bool)
  | num (n : JNum)
  | str (s : String)
  | arr (elems : List Json)
  | obj (fields : List (String × Json))

/-- Structured decode failures, mirroring the error classes `serde` reports
for these derived types (there is no ASN-specific decode error: `peer_asn`
is decoded as a plain string). -/
inductive DecodeError where
  | missingField (name : String)
  | invalidType (name : String)
  | unknownVariant (tag : String)
deriving DecidableEq, Repr

/-- Look a key up in a JSON object field list. -/
def jGet (fields : List (String × Json)) (k : String) : Option Json :=
  match fields with
  | [] => none
  | (k', v) :: rest => if k' = k then some v else jGet rest k

/-- Decode a required `f64` field (`serde_json` accepts integer or float
numbers for `f64`). -/
def decF64 (fields : List (String × Json)) (k : String) : Except DecodeError Float :=
  match jGet fields k with
  | none => .error (.missingField k)
  | some (.num (.float f)) => .ok f
  | some (.num (.int i)) => .ok (Float.ofInt i)
  | some _ => .error (.invalidType k)

/-- Decode a required string field. -/
def decStr (fields : List (String × Json)) (k : String) : Except DecodeError String :=
  match jGet fields k with
  | none => .error (.missingField k)
  | some (.str s) => .ok s
  | some _ => .error (.invalidType k)

/-- Decode one JSON value as a `u32` (integer in range, as serde requires). -/
def decU32 (k : String) (j : Json) : Except DecodeError Nat :=
  match j with
  | .num (.int i) => if 0 ≤ i ∧ i < 2 ^ 32 then .ok i.toNat else .error (.invalidType k)
  | _ => .error (.invalidType k)

/-- Decode one JSON value as a string. -/
def decStrVal (k : String) (j : Json) : Except DecodeError String :=
  match j with
  | .str s => .ok s
  | _ => .error (.invalidType k)

/-- Decode an optional field (`Option<T>` in serde: absent or `null` becomes
`None`) whose payload is decoded elementwise from a JSON array. -/
def decOptList {α : Type} (fields : List (String × Json)) (k : String)
    (elem : Json → Except DecodeError α) : Except DecodeError (Option (List α)) :=
  match jGet fields k with
  | none => .ok none
  | some .null => .ok none
  | some (.arr xs) =>
    match xs.mapM elem with
    | .ok ys => .ok (some ys)
    | .error e => .error e
  | some _ => .error (.invalidType k)

/-- Decode one JSON value as an `AnnouncementEntry` (required `next_hop`
string, required `prefixes` array of strings). -/
def decEntry (j : Json) : Except DecodeError AnnouncementEntry :=
  match j with
  | .obj fields =>
    match decStr fields "next_hop" with
    | .error e => .error e
    | .ok nh =>
      match jGet fields "prefixes" with
      | none => .error (.missingField "prefixes")
      | some (.arr xs) =>
        match xs.mapM (decStrVal "prefixes") with
        | .ok ps => .ok ⟨nh, ps⟩
        | .error e => .error e
      | some _ => .error (.invalidType "prefixes")
  | _ => .error (.invalidType "announcements")

/-- Decode the flattened `RISAnnouncement` block from the message object:
all four fields are optional. -/
def decAnnouncement (fields : List (String × Json)) : Except DecodeError RISAnnouncement :=
  match decOptList fields "path" (decU32 "path") with
  | .error e => .error e
  | .ok path =>
    match decOptList fields "community" (fun j =>
      match j with
      | .arr ys =>
        match ys.mapM (decU32 "community") with
        | .ok zs => Except.ok zs
        | .error e => Except.error e
      | _ => Except.error (.invalidType "community")) with
    | .error e => .error e
    | .ok community =>
      match jGet fields "origin" with
      | some (.str s) => decAnnouncementRest fields path community (some s)
      | none => decAnnouncementRest fields path community none
      | some .null => decAnnouncementRest fields path community none
      | some _ => .error (.invalidType "origin")
where
  /-- Decode the remaining `announcements` field and assemble the block. -/
  decAnnouncementRest (fields : List (String × Json)) (path : Option (List Nat))
      (community : Option (List (List Nat))) (origin : Option String) :
      Except DecodeError RISAnnouncement :=
    match decOptList fields "announcements" decEntry with
    | .error e => .error e
    | .ok annos => .ok ⟨path, community, origin, annos⟩

/-- Decode the flattened, internally tagged `RISMessageType` from the message
object: the `type` tag must be `UPDATE`, then the announcement block and the
optional `withdrawals` list come from the same object. -/
def decMessageType (fields : List (String × Json)) : Except DecodeError RISMessageType :=
  match jGet fields "type" with
  | none => .error (.missingField "type")
  | some (.str "UPDATE") =>
    match decAnnouncement fields with
    | .error e => .error e
    | .ok announce =>
      match decOptList fields "withdrawals" (decStrVal "withdrawals") with
      | .error e => .error e
      | .ok w => .ok (.UPDATE announce w)
  | some (.str tag) => .error (.unknownVariant tag)
  | some _ => .error (.invalidType "type")

/-- Decode a `RISMessage` from a JSON value: the five plain fields plus the
flattened message type. -/
def decodeRISMessage (j : Json) : Except DecodeError RISMessage :=
  match j with
  | .obj fields =>
    match decF64 fields "timestamp" with
    | .error e => .error e
    | .ok timestamp =>
      match decStr fields "peer" with
      | .error e => .error e
      | .ok peer =>
        match decStr fields "peer_asn" with
        | .error e => .error e
        | .ok peer_asn =>
          match decStr fields "id" with
          | .error e => .error e
          | .ok idv =>
            match decStr fields "host" with
            | .error e => .error e
            | .ok host =>
              match decMessageType fields with
              | .error e => .error e
              | .ok ty => .ok ⟨timestamp, peer, peer_asn, idv, host, ty⟩
  | _ => .error (.invalidType "RISMessage")

/-- Decode a `RISPacket` (adjacently tagged: `type` selects the variant,
`data` carries its content); `ris_message` is the only variant. -/
def decodeRISPacket (j : Json) : Except DecodeError RISPacket :=
  match j with
  | .obj fields =>
    match jGet fields "type" with
    | none => .error (.missingField "type")
    | some (.str "ris_message") =>
      match jGet fields "data" with
      | none => .error (.missingField "data")
      | some d =>
        match decodeRISMessage d with
        | .ok m => .ok (.message m)
        | .error e => .error e
    | some (.str tag) => .error (.unknownVariant tag)
    | some _ => .error (.invalidType "type")
  | _ => .error (.invalidType "RISPacket")

/-! ## Event derivation (`src/lib.rs`, `BGPUpdate::from_message`)

The source calls `.unwrap()` on every fallible parse, so a malformed field
aborts the process. `PanicOr` makes that outcome explicit: `panicked` is an
unrecoverable fault, `ok` the function's return value. -/

/-- Outcome of running Rust code that may panic. -/
inductive PanicOr (α : Type) where
  | panicked
  | ok (val : α)

/-- `lib.rs` `AnnouncementVector`. -/
structure AnnouncementVector where
  next_hop : IpAddr
  prefixes : List IpNet
deriving DecidableEq, Repr

/-- `lib.rs` `BGPUpdateType`. -/
inductive BGPUpdateType where
  | Announce (path : List Nat) (vectors : List AnnouncementVector)
  | Withdraw (prefixes : List IpNet)
deriving DecidableEq, Repr

/-- `lib.rs` `BGPUpdate`: a BGP update message. -/
structure BGPUpdate where
  timestamp : Float
  asn : Nat
  kind : BGPUpdateType

/-- Map a panicking function over a list, stopping at the first panic
(the order in which consecutive `.unwrap()` calls fire inside an iterator). -/
def mapPanic {α β : Type} (f : α → PanicOr β) : List α → PanicOr (List β)
  | [] => .ok []
  | x :: xs =>
    match f x with
    | .panicked => .panicked
    | .ok y =>
      match mapPanic f xs with
      | .panicked => .panicked
      | .ok ys => .ok (y :: ys)

/-- `s.parse::<IpNet>().unwrap()`. -/
def unwrapNet (s : String) : PanicOr IpNet :=
  match parseIpNet s with
  | some n => .ok n
  | none => .panicked

/-- Body of the per-entry closure building an `AnnouncementVector`:
`next_hop` parsed (and unwrapped) first, then each prefix string. -/
def parseVector (e : AnnouncementEntry) : PanicOr AnnouncementVector :=
  match parseIpAddr e.next_hop with
  | none => .panicked
  | some nh =>
    match mapPanic unwrapNet e.prefixes with
    | .panicked => .panicked
    | .ok ps => .ok ⟨nh, ps⟩

/-- The announcement half of `from_message`: when `path` is present the code
unwraps `announcements` (panicking when it is `None`), parses every entry,
unwraps the peer ASN, and pushes one `Announce` update; when `path` is absent
nothing is pushed. -/
def announceStep (msg : RISMessage) (announce : RISAnnouncement) :
    PanicOr (List BGPUpdate) :=
  match announce.path with
  | none => .ok []
  | some p =>
    match announce.announcements with
    | none => .panicked
    | some a =>
      match mapPanic parseVector a with
      | .panicked => .panicked
      | .ok vs =>
        match parseU32Radix10 msg.peer_asn with
        | none => .panicked
        | some asn => .ok [⟨msg.timestamp, asn, .Announce p vs⟩]

/-- The withdrawal half of `from_message`: when `withdrawals` is present the
code unwraps the peer ASN, parses (and unwraps) every prefix string, and
pushes one `Withdraw` update after whatever the announcement half pushed. -/
def withdrawStep (msg : RISMessage) (res : List BGPUpdate)
    (withdrawals : Option (List String)) : PanicOr (Option (List BGPUpdate)) :=
  match withdrawals with
  | none => .ok (some res)
  | some w =>
    match parseU32Radix10 msg.peer_asn with
    | none => .panicked
    | some asn =>
      match mapPanic unwrapNet w with
      | .panicked => .panicked
      | .ok ps => .ok (some (res ++ [⟨msg.timestamp, asn, .Withdraw ps⟩]))

/-- `BGPUpdate::from_message`. The trailing `return None` of the source is
dead code: `RISMessageType` has only the `UPDATE` variant, so the `if let`
always matches. -/
def from_message (msg : RISMessage) : PanicOr (Option (List BGPUpdate)) :=
  match msg.ty with
  | .UPDATE announce withdrawals =>
    match announceStep msg announce with
    | .panicked => .panicked
    | .ok res => withdrawStep msg res withdrawals

/-- An announcement entry whose `next_hop` and prefix strings all parse. -/
def entryWF (e : AnnouncementEntry) : Bool :=
  (parseIpAddr e.next_hop).isSome && e.prefixes.all (fun s => (parseIpNet s).isSome)

/-- The announcement half of well-formedness: when `path` is present,
`announcements` must be present with every entry well-formed and the peer
ASN must parse (otherwise `announceStep` panics). -/
def announceWF (msg : RISMessage) (announce : RISAnnouncement) : Bool :=
  match announce.path with
  | none => true
  | some _ =>
    (match announce.announcements with
     | none => false
     | some a => a.all entryWF) && (parseU32Radix10 msg.peer_asn).isSome

/-- The withdrawal half of well-formedness: when `withdrawals` is present,
the peer ASN must parse and every withdrawal prefix string must parse
(otherwise `withdrawStep` panics). -/
def withdrawWF (msg : RISMessage) (withdrawals : Option (List String)) : Bool :=
  match withdrawals with
  | none => true
  | some w =>
    (parseU32Radix10 msg.peer_asn).isSome && w.all (fun s => (parseIpNet s).isSome)

/-- A message on which every `.unwrap()` inside `from_message` succeeds. -/
def msgWF (msg : RISMessage) : Bool :=
  match msg.ty with
  | .UPDATE announce withdrawals =>
    announceWF msg announce && withdrawWF msg withdrawals

/-- Whether an update is an announcement. -/
def isAnnounce (u : BGPUpdate) : Bool :=
  match u.kind with
  | .Announce _ _ => true
  | .Withdraw _ => false

/-- Whether an update is a withdrawal. -/
def isWithdraw (u : BGPUpdate) : Bool :=
  match u.kind with
  | .Announce _ _ => false
  | .Withdraw _ => true

/-! ## Line rendering (`impl Display for BGPUpdate`) -/

/-- `format!("{:>6}", s)`: right-align to a minimum width of six (Rust width
is a minimum: longer strings are not truncated). -/
def padLeft6 (s : String) : String :=
  String.mk (List.replicate (6 - s.length) ' ') ++ s

/-- `format!("{:<6}", s)`: left-align to a minimum width of six. -/
def padRight6 (s : String) : String :=
  s ++ String.mk (List.replicate (6 - s.length) ' ')

/-- `format!("{:<20}", s)`: left-align to a minimum width of twenty. -/
def padRight20 (s : String) : String :=
  s ++ String.mk (List.replicate (20 - s.length) ' ')

/-- The AS-path column: each AS number rendered `{:<6}`, joined with a single
space, in path order. -/
def pathText (path : List Nat) : String :=
  String.intercalate " " (path.map (fun x => padRight6 (natStr x)))

/-- One rendered announcement line: `"{:>6}|A {:<20}|{}"`. -/
def announceLine (asn : Nat) (path : List Nat) (pfx : IpNet) : String :=
  padLeft6 (natStr asn) ++ "|A " ++ padRight20 (ipNetStr pfx) ++ "|" ++ pathText path

/-- One rendered withdrawal line: `"{:>6}|W {:<20}"`. -/
def withdrawLine (asn : Nat) (pfx : IpNet) : String :=
  padLeft6 (natStr asn) ++ "|W " ++ padRight20 (ipNetStr pfx)

/-- The lines emitted by `Display for BGPUpdate`, in emission order: for an
announcement, vectors outer and each vector's prefixes inner; for a
withdrawal, one line per prefix. -/
def updateLines (u : BGPUpdate) : List String :=
  match u.kind with
  | .Announce path vectors =>
    (vectors.map (fun v => v.prefixes.map (fun p => announceLine u.asn path p))).flatten
  | .Withdraw ps => ps.map (fun p => withdrawLine u.asn p)

/-- The full `Display` output: every line is emitted with `writeln!`, so each
is terminated by a newline. -/
def renderUpdate (u : BGPUpdate) : String :=
  String.join ((updateLines u).map (fun l => l ++ "\n"))

/-! ## Lemmas about panics and elementwise parsing -/

/-- A `PanicOr` computation that did not panic returned a value. -/
lemma PanicOr.ne_panicked_iff {α : Type} {x : PanicOr α} :
    x ≠ .panicked ↔ ∃ v, x = .ok v := by
  cases x <;> simp

/-- `mapPanic` panics exactly when some element makes `f` panic. -/
lemma mapPanic_panicked_iff {α β : Type} {f : α → PanicOr β} {xs : List α} :
    mapPanic f xs = .panicked ↔ ∃ x ∈ xs, f x = .panicked := by
  induction xs with
  | nil => simp [mapPanic]
  | cons x xs ih =>
    cases hfx : f x with
    | panicked =>
      simp only [mapPanic, hfx]
      exact ⟨fun _ => ⟨x, by simp, hfx⟩, fun _ => trivial⟩
    | ok y =>
      cases hm : mapPanic f xs with
      | panicked =>
        simp only [mapPanic, hfx, hm]
        refine ⟨fun _ => ?_, fun _ => trivial⟩
        obtain ⟨z, hz, hfz⟩ := ih.mp hm
        exact ⟨z, by simp [hz], hfz⟩
      | ok ys =>
        simp only [mapPanic, hfx, hm]
        constructor
        · intro h; cases h
        · rintro ⟨z, hz, hfz⟩
          rcases List.mem_cons.mp hz with h | h
          · subst h; rw [hfz] at hfx; cases hfx
          · have : mapPanic f xs = .panicked := ih.mpr ⟨z, h, hfz⟩
            rw [this] at hm; cases hm

/-- A successful `mapPanic` relates input and output elementwise, in order. -/
lemma mapPanic_ok_forall₂ {α β : Type} {f : α → PanicOr β} :
    ∀ {xs : List α} {ys : List β}, mapPanic f xs = .ok ys →
      List.Forall₂ (fun x y => f x = .ok y) xs ys := by
  intro xs
  induction xs with
  | nil => intro ys h; simp [mapPanic] at h; subst h; exact .nil
  | cons x xs ih =>
    intro ys h
    cases hfx : f x with
    | panicked => simp [mapPanic, hfx] at h
    | ok y =>
      cases hm : mapPanic f xs with
      | panicked => simp [mapPanic, hfx, hm] at h
      | ok zs =>
        simp only [mapPanic, hfx, hm] at h
        cases h
        exact .cons hfx (ih hm)

/-- When no element panics, `mapPanic` succeeds. -/
lemma mapPanic_exists_ok {α β : Type} {f : α → PanicOr β} {xs : List α}
    (h : ∀ x ∈ xs, f x ≠ .panicked) : ∃ ys, mapPanic f xs = .ok ys := by
  have : mapPanic f xs ≠ .panicked := by
    intro hp
    obtain ⟨x, hx, hfx⟩ := mapPanic_panicked_iff.mp hp
    exact h x hx hfx
  exact PanicOr.ne_panicked_iff.mp this

/-- `unwrapNet` panics exactly on strings that are not CIDR networks. -/
lemma unwrapNet_panicked_iff {s : String} :
    unwrapNet s = .panicked ↔ parseIpNet s = none := by
  cases h : parseIpNet s <;> simp [unwrapNet, h]

/-- `unwrapNet` returns exactly the parsed network. -/
lemma unwrapNet_ok_iff {s : String} {n : IpNet} :
    unwrapNet s = .ok n ↔ parseIpNet s = some n := by
  cases h : parseIpNet s <;> simp [unwrapNet, h]

/-- Shape of a successfully built announcement vector. -/
lemma parseVector_ok_iff {e : AnnouncementEntry} {v : AnnouncementVector} :
    parseVector e = .ok v ↔
      parseIpAddr e.next_hop = some v.next_hop ∧
        mapPanic unwrapNet e.prefixes = .ok v.prefixes := by
  obtain ⟨vn, vp⟩ := v
  cases hn : parseIpAddr e.next_hop with
  | none => simp [parseVector, hn]
  | some nh =>
    cases hm : mapPanic unwrapNet e.prefixes with
    | panicked => simp [parseVector, hn, hm]
    | ok ps =>
      simp only [parseVector, hn, hm, Option.some.injEq]
      constructor
      · intro h; cases h; exact ⟨rfl, rfl⟩
      · rintro ⟨h1, h2⟩; cases h1; cases h2; rfl

/-- Building one vector panics exactly when the next hop or some prefix
string fails to parse. -/
lemma parseVector_panicked_iff {e : AnnouncementEntry} :
    parseVector e = .panicked ↔
      parseIpAddr e.next_hop = none ∨ ∃ s ∈ e.prefixes, parseIpNet s = none := by
  cases hn : parseIpAddr e.next_hop with
  | none => simp [parseVector, hn]
  | some nh =>
    cases hm : mapPanic unwrapNet e.prefixes with
    | panicked =>
      simp only [parseVector, hn, hm]
      have := mapPanic_panicked_iff.mp hm
      simp only [unwrapNet_panicked_iff] at this
      exact ⟨fun _ => Or.inr this, fun _ => trivial⟩
    | ok ps =>
      simp only [parseVector, hn, hm]
      constructor
      · intro h; cases h
      · rintro (h | ⟨s, hs, hps⟩)
        · cases h
        · have : mapPanic unwrapNet e.prefixes = .panicked :=
            mapPanic_panicked_iff.mpr ⟨s, hs, unwrapNet_panicked_iff.mpr hps⟩
          rw [this] at hm; cases hm

/-- An entry is well-formed exactly when building its vector does not panic. -/
lemma entryWF_iff_ne_panicked {e : AnnouncementEntry} :
    entryWF e = true ↔ parseVector e ≠ .panicked := by
  rw [Ne, parseVector_panicked_iff]
  simp only [entryWF, Bool.and_eq_true, List.all_eq_true, Option.isSome_iff_ne_none]
  push_neg
  constructor
  · rintro ⟨h1, h2⟩
    exact ⟨h1, fun s hs => by simpa using h2 s hs⟩
  · rintro ⟨h1, h2⟩
    exact ⟨h1, fun s hs => by simpa using h2 s hs⟩

/-! ## Characterizing the two halves of `from_message` -/

/-- With no AS-path the announcement half pushes nothing and cannot panic. -/
lemma announceStep_path_none {msg : RISMessage} {announce : RISAnnouncement}
    (h : announce.path = none) : announceStep msg announce = .ok [] := by
  simp [announceStep, h]

/-- The announcement half panics exactly when its half of well-formedness
fails. -/
lemma announceStep_panicked_iff {msg : RISMessage} {announce : RISAnnouncement} :
    announceStep msg announce = .panicked ↔ announceWF msg announce = false := by
  cases hp : announce.path with
  | none => simp [announceStep, announceWF, hp]
  | some p =>
    cases ha : announce.announcements with
    | none => simp [announceStep, announceWF, hp, ha]
    | some a =>
      cases hm : mapPanic parseVector a with
      | panicked =>
        simp only [announceStep, announceWF, hp, ha, hm]
        obtain ⟨e, he, hpe⟩ := mapPanic_panicked_iff.mp hm
        have : ¬ a.all entryWF = true := by
          simp only [List.all_eq_true]
          intro hall
          exact (entryWF_iff_ne_panicked.mp (hall e he)) hpe
        simp [this]
      | ok vs =>
        have hne : ∀ e ∈ a, parseVector e ≠ .panicked := by
          intro e he hpe
          have := mapPanic_panicked_iff.mpr ⟨e, he, hpe⟩
          rw [this] at hm; cases hm
        have hall : a.all entryWF = true := by
          simp only [List.all_eq_true]
          exact fun e he => entryWF_iff_ne_panicked.mpr (hne e he)
        cases hasn : parseU32Radix10 msg.peer_asn with
        | none => simp [announceStep, announceWF, hp, ha, hm, hasn, hall]
        | some asn => simp [announceStep, announceWF, hp, ha, hm, hasn, hall]

/-- Shape of a successful announcement half when the AS-path is present. -/
lemma announceStep_ok_some {msg : RISMessage} {announce : RISAnnouncement}
    {p : List Nat} {res : List BGPUpdate} (hp : announce.path = some p)
    (h : announceStep msg announce = .ok res) :
    ∃ a vs asn, announce.announcements = some a ∧
      mapPanic parseVector a = .ok vs ∧
      parseU32Radix10 msg.peer_asn = some asn ∧
      res = [⟨msg.timestamp, asn, .Announce p vs⟩] := by
  cases ha : announce.announcements with
  | none => simp [announceStep, hp, ha] at h
  | some a =>
    cases hm : mapPanic parseVector a with
    | panicked => simp [announceStep, hp, ha, hm] at h
    | ok vs =>
      cases hasn : parseU32Radix10 msg.peer_asn with
      | none => simp [announceStep, hp, ha, hm, hasn] at h
      | some asn =>
        simp only [announceStep, hp, ha, hm, hasn] at h
        cases h
        exact ⟨a, vs, asn, rfl, hm, rfl, rfl⟩

/-- Everything the announcement half pushes is an `Announce`. -/
lemma announceStep_ok_all_announce {msg : RISMessage} {announce : RISAnnouncement}
    {res : List BGPUpdate} (h : announceStep msg announce = .ok res) :
    res.length ≤ 1 ∧ ∀ u ∈ res, isAnnounce u = true := by
  cases hp : announce.path with
  | none =>
    rw [announceStep_path_none hp] at h
    cases h
    exact ⟨by simp, by simp⟩
  | some p =>
    obtain ⟨a, vs, asn, _, _, _, hres⟩ := announceStep_ok_some hp h
    subst hres
    exact ⟨by simp, by simp [isAnnounce]⟩

/-- With no withdrawal list the withdrawal half returns the announcement
half's pushes unchanged. -/
lemma withdrawStep_none {msg : RISMessage} {res : List BGPUpdate} :
    withdrawStep msg res none = .ok (some res) := rfl

/-- The withdrawal half panics exactly when its half of well-formedness
fails (independently of what the announcement half pushed). -/
lemma withdrawStep_panicked_iff {msg : RISMessage} {res : List BGPUpdate}
    {withdrawals : Option (List String)} :
    withdrawStep msg res withdrawals = .panicked ↔ withdrawWF msg withdrawals = false := by
  cases hw : withdrawals with
  | none => simp [withdrawStep, withdrawWF, hw]
  | some w =>
    cases hasn : parseU32Radix10 msg.peer_asn with
    | none => simp [withdrawStep, withdrawWF, hw, hasn]
    | some asn =>
      cases hm : mapPanic unwrapNet w with
      | panicked =>
        simp only [withdrawStep, withdrawWF, hw, hasn, hm]
        obtain ⟨s, hs, hps⟩ := mapPanic_panicked_iff.mp hm
        have : ¬ w.all (fun s => (parseIpNet s).isSome) = true := by
          simp only [List.all_eq_true]
          intro hall
          have := hall s hs
          rw [unwrapNet_panicked_iff.mp hps] at this
          cases this
        simp [this]
      | ok ps =>
        have hall : w.all (fun s => (parseIpNet s).isSome) = true := by
          simp only [List.all_eq_true]
          intro s hs
          cases hps : parseIpNet s with
          | none =>
            have := mapPanic_panicked_iff.mpr
              ⟨s, hs, unwrapNet_panicked_iff.mpr hps⟩
            rw [this] at hm; cases hm
          | some n => simp
        simp [withdrawStep, withdrawWF, hw, hasn, hm, hall]

/-- Shape of a successful withdrawal half when the list is present. -/
lemma withdrawStep_ok_some {msg : RISMessage} {res : List BGPUpdate}
    {w : List String} {o : Option (List BGPUpdate)}
    (h : withdrawStep msg res (some w) = .ok o) :
    ∃ asn ps, parseU32Radix10 msg.peer_asn = some asn ∧
      mapPanic unwrapNet w = .ok ps ∧
      o = some (res ++ [⟨msg.timestamp, asn, .Withdraw ps⟩]) := by
  cases hasn : parseU32Radix10 msg.peer_asn with
  | none => simp [withdrawStep, hasn] at h
  | some asn =>
    cases hm : mapPanic unwrapNet w with
    | panicked => simp [withdrawStep, hasn, hm] at h
    | ok ps =>
      simp only [withdrawStep, hasn, hm] at h
      cases h
      exact ⟨asn, ps, rfl, rfl, rfl⟩

/-- Unfolding `from_message` at an `UPDATE` message. -/
lemma from_message_eq {msg : RISMessage} {announce : RISAnnouncement}
    {withdrawals : Option (List String)}
    (h : msg.ty = .UPDATE announce withdrawals) :
    from_message msg =
      match announceStep msg announce with
      | .panicked => .panicked
      | .ok res => withdrawStep msg res withdrawals := by
  simp [from_message, h]

/-! ## Concrete envelopes

JSON envelopes and decoded messages used to evaluate the pipeline on the
spec's scenario inputs and on malformed variants. -/

/-- The spec's announce scenario input (§8). -/
def scenario1Json : Json :=
  .obj [("type", .str "ris_message"),
        ("data", .obj [("timestamp", .num (.float 1.0)),
                       ("peer", .str "1.1.1.1"),
                       ("peer_asn", .str "65000"),
                       ("id", .str "x"),
                       ("host", .str "h"),
                       ("type", .str "UPDATE"),
                       ("path", .arr [.num (.int 65001)]),
                       ("announcements",
                        .arr [.obj [("next_hop", .str "2.2.2.2"),
                                    ("prefixes", .arr [.str "10.0.0.0/24"])]])])]

/-- The envelope the announce scenario decodes to. -/
def scenario1Msg : RISMessage :=
  ⟨1.0, "1.1.1.1", "65000", "x", "h",
   .UPDATE ⟨some [65001], none, none, some [⟨"2.2.2.2", ["10.0.0.0/24"]⟩]⟩ none⟩

/-- The single update derived from the announce scenario. -/
def scenario1Update : BGPUpdate :=
  ⟨1.0, 65000, .Announce [65001] [⟨.v4 ⟨2, 2, 2, 2⟩, [.v4 ⟨10, 0, 0, 0⟩ 24]⟩]⟩

/-- The spec's withdraw scenario input (§8): withdrawals only. -/
def scenario2Json : Json :=
  .obj [("type", .str "ris_message"),
        ("data", .obj [("timestamp", .num (.float 1.0)),
                       ("peer", .str "1.1.1.1"),
                       ("peer_asn", .str "65000"),
                       ("id", .str "x"),
                       ("host", .str "h"),
                       ("type", .str "UPDATE"),
                       ("withdrawals", .arr [.str "10.0.0.0/24"])])]

/-- The envelope the withdraw scenario decodes to. -/
def scenario2Msg : RISMessage :=
  ⟨1.0, "1.1.1.1", "65000", "x", "h",
   .UPDATE ⟨none, none, none, none⟩ (some ["10.0.0.0/24"])⟩

/-- The single update derived from the withdraw scenario. -/
def scenario2Update : BGPUpdate :=
  ⟨1.0, 65000, .Withdraw [.v4 ⟨10, 0, 0, 0⟩ 24]⟩

/-- A decodable envelope with a non-decimal `peer_asn` and a withdrawal. -/
def c1Json : Json :=
  .obj [("type", .str "ris_message"),
        ("data", .obj [("timestamp", .num (.float 1.0)),
                       ("peer", .str "1.1.1.1"),
                       ("peer_asn", .str "not-a-number"),
                       ("id", .str "x"),
                       ("host", .str "h"),
                       ("type", .str "UPDATE"),
                       ("withdrawals", .arr [.str "10.0.0.0/8"])])]

/-- The message `c1Json` decodes to. -/
def c1Msg : RISMessage :=
  ⟨1.0, "1.1.1.1", "not-a-number", "x", "h",
   .UPDATE ⟨none, none, none, none⟩ (some ["10.0.0.0/8"])⟩

/-- An announcement block with no AS-path but `origin` and announcement
entries present. -/
def c2Announce : RISAnnouncement :=
  ⟨none, none, some "igp", some [⟨"2.2.2.2", ["10.0.0.0/24"]⟩]⟩

/-- An envelope carrying `c2Announce` and nothing else actionable. -/
def c2Msg : RISMessage :=
  ⟨1.0, "1.1.1.1", "65000", "x", "h", .UPDATE c2Announce none⟩

/-- An envelope whose only announcement entry has a non-IP `next_hop`. -/
def c3Msg : RISMessage :=
  ⟨1.0, "1.1.1.1", "65000", "x", "h",
   .UPDATE ⟨some [65001], none, none, some [⟨"not-an-ip", ["10.0.0.0/24"]⟩]⟩ none⟩

/-- A family of envelopes over an arbitrary `peer_asn` string, otherwise the
withdraw scenario. -/
def c4Json (asnStr : String) : Json :=
  .obj [("type", .str "ris_message"),
        ("data", .obj [("timestamp", .num (.float 1.0)),
                       ("peer", .str "1.1.1.1"),
                       ("peer_asn", .str asnStr),
                       ("id", .str "x"),
                       ("host", .str "h"),
                       ("type", .str "UPDATE"),
                       ("withdrawals", .arr [.str "10.0.0.0/24"])])]

/-- The message `c4Json asnStr` decodes to. -/
def c4Msg (asnStr : String) : RISMessage :=
  ⟨1.0, "1.1.1.1", asnStr, "x", "h",
   .UPDATE ⟨none, none, none, none⟩ (some ["10.0.0.0/24"])⟩

/-- An envelope with an AS-path but no announcement-entries list. -/
def c5Msg : RISMessage :=
  ⟨1.0, "1.1.1.1", "65000", "x", "h",
   .UPDATE ⟨some [65001], none, none, none⟩ none⟩

/-- An envelope with an AS-path and an empty announcement-entries list. -/
def c5EmptyMsg : RISMessage :=
  ⟨1.0, "1.1.1.1", "65000", "x", "h",
   .UPDATE ⟨some [65001], none, none, some []⟩ none⟩

/-- An envelope with both an announcement block and a withdrawal list. -/
def c8Msg : RISMessage :=
  ⟨1.0, "1.1.1.1", "65000", "x", "h",
   .UPDATE ⟨some [65001], none, none, some [⟨"2.2.2.2", ["10.0.0.0/24"]⟩]⟩
     (some ["10.0.0.1/32"])⟩

/-- A decodable envelope with an AS-path but no announcement entries. -/
def c10Json : Json :=
  .obj [("type", .str "ris_message"),
        ("data", .obj [("timestamp", .num (.float 1.0)),
                       ("peer", .str "1.1.1.1"),
                       ("peer_asn", .str "65000"),
                       ("id", .str "x"),
                       ("host", .str "h"),
                       ("type", .str "UPDATE"),
                       ("path", .arr [.num (.int 1)])])]

/-- The message `c10Json` decodes to. -/
def c10Msg : RISMessage :=
  ⟨1.0, "1.1.1.1", "65000", "x", "h",
   .UPDATE ⟨some [1], none, none, none⟩ none⟩

/-! ## Claims -/

/-- C1, as stated, is false: `c1Json` decodes successfully, yet deriving
events from it panics (the peer-ASN `.unwrap()` fires), so not every failure
is a returned error value. -/
theorem C1_claim_counterexample :
    decodeRISPacket c1Json = .ok (.message c1Msg) ∧ from_message c1Msg = .panicked :=
  ⟨rfl, rfl⟩

/-- C1 (amended): decoding returns all its failures as error values, but
event derivation panics on a malformed field; it panics exactly on messages
that are not well-formed (missing announcement entries with a path present,
non-IP next hop, non-CIDR prefix, or non-decimal peer ASN on a reached
branch). -/
theorem C1_panic_iff_malformed (msg : RISMessage) :
    from_message msg = .panicked ↔ msgWF msg = false := by
  cases hty : msg.ty with
  | UPDATE announce w =>
    rw [from_message_eq hty]
    cases has : announceStep msg announce with
    | panicked =>
      have hwf : announceWF msg announce = false := announceStep_panicked_iff.mp has
      simp [msgWF, hty, hwf]
    | ok res =>
      have hwf : announceWF msg announce = true := by
        cases h : announceWF msg announce with
        | false =>
          have := announceStep_panicked_iff.mpr h
          rw [this] at has; cases has
        | true => rfl
      simp only [msgWF, hty, hwf, Bool.true_and]
      exact withdrawStep_panicked_iff

/-- Witness: the amended C1 at a concrete malformed message. -/
theorem C1_panic_iff_malformed_witness :
    from_message c1Msg = .panicked ∧ msgWF c1Msg = false :=
  ⟨(C1_panic_iff_malformed c1Msg).mpr rfl, rfl⟩

/-- C2, as stated, is false: with the AS-path absent but `origin` and the
announcement-entries list present, derivation succeeds with no events instead
of failing with `InconsistentAnnouncement` (no such error exists in the
code). -/
theorem C2_claim_counterexample :
    c2Announce.path = none ∧ c2Announce.origin.isSome = true ∧
    c2Announce.announcements.isSome = true ∧ from_message c2Msg = .ok (some []) :=
  ⟨rfl, rfl, rfl, rfl⟩

/-- C2 (amended): when the AS-path is absent the announcement block is
silently ignored — the derivation result depends only on the withdrawal
list, the timestamp and the peer ASN, never on `community`, `origin` or
`announcements`. -/
theorem C2_announce_fields_ignored_without_path
    (msg msg' : RISMessage) (announce announce' : RISAnnouncement)
    (w : Option (List String))
    (hty : msg.ty = .UPDATE announce w) (hty' : msg'.ty = .UPDATE announce' w)
    (hp : announce.path = none) (hp' : announce'.path = none)
    (hts : msg.timestamp = msg'.timestamp) (hasn : msg.peer_asn = msg'.peer_asn) :
    from_message msg = from_message msg' := by
  rw [from_message_eq hty, from_message_eq hty',
      announceStep_path_none hp, announceStep_path_none hp']
  simp only [withdrawStep, hts, hasn]

/-- Witness: the amended C2 at a concrete pair of messages. -/
theorem C2_announce_fields_ignored_without_path_witness :
    from_message c2Msg =
      from_message ⟨1.0, "1.1.1.1", "65000", "x", "h",
        .UPDATE ⟨none, none, none, none⟩ none⟩ :=
  C2_announce_fields_ignored_without_path c2Msg
    ⟨1.0, "1.1.1.1", "65000", "x", "h", .UPDATE ⟨none, none, none, none⟩ none⟩
    c2Announce ⟨none, none, none, none⟩ none rfl rfl rfl rfl rfl rfl

/-- C3, as stated, is false: a non-IP `next_hop` makes derivation panic
rather than return an `InvalidAddress` error value (the code has no such
error; its only failure mode is the panic). -/
theorem C3_claim_counterexample :
    parseIpAddr "not-an-ip" = none ∧ from_message c3Msg = .panicked :=
  ⟨rfl, rfl⟩

/-- C3 (amended): an announcement entry whose `next_hop` is not an IP
address or whose prefix list contains a non-CIDR string, or a withdrawal
list containing a non-CIDR string, makes derivation panic — the bad entry is
never silently dropped, but the failure is an unwrap panic, not a returned
error value. -/
theorem C3_invalid_address_panics :
    (∀ (msg : RISMessage) (announce : RISAnnouncement) (w : Option (List String))
      (p : List Nat) (a : List AnnouncementEntry),
      msg.ty = .UPDATE announce w → announce.path = some p →
      announce.announcements = some a →
      (∃ e ∈ a, parseIpAddr e.next_hop = none ∨ ∃ s ∈ e.prefixes, parseIpNet s = none) →
      from_message msg = .panicked) ∧
    (∀ (msg : RISMessage) (announce : RISAnnouncement) (ws : List String),
      msg.ty = .UPDATE announce (some ws) →
      (∃ s ∈ ws, parseIpNet s = none) → from_message msg = .panicked) := by
  constructor
  · rintro msg announce w p a hty hp ha ⟨e, he, hbad⟩
    have hpe : parseVector e = .panicked := parseVector_panicked_iff.mpr hbad
    have hm : mapPanic parseVector a = .panicked :=
      mapPanic_panicked_iff.mpr ⟨e, he, hpe⟩
    rw [from_message_eq hty]
    simp [announceStep, hp, ha, hm]
  · rintro msg announce ws hty ⟨s, hs, hps⟩
    rw [from_message_eq hty]
    cases has : announceStep msg announce with
    | panicked => rfl
    | ok res =>
      have hm : mapPanic unwrapNet ws = .panicked :=
        mapPanic_panicked_iff.mpr ⟨s, hs, unwrapNet_panicked_iff.mpr hps⟩
      cases hasn : parseU32Radix10 msg.peer_asn <;> simp [withdrawStep, hasn, hm]

/-- Witness: the amended C3 at the concrete bad-next-hop message. -/
theorem C3_invalid_address_panics_witness : from_message c3Msg = .panicked :=
  C3_invalid_address_panics.1 c3Msg
    ⟨some [65001], none, none, some [⟨"not-an-ip", ["10.0.0.0/24"]⟩]⟩ none
    [65001] [⟨"not-an-ip", ["10.0.0.0/24"]⟩] rfl rfl rfl
    ⟨⟨"not-an-ip", ["10.0.0.0/24"]⟩, by simp, Or.inl rfl⟩

/-- C4, as stated, is false: decoding accepts a non-decimal `peer_asn`
("xyz") outright — `DecodeError` has no ASN-related case — and the failure
surfaces only later, as a panic during derivation. -/
theorem C4_claim_counterexample :
    decodeRISPacket (c4Json "xyz") = .ok (.message (c4Msg "xyz")) ∧
    parseU32Radix10 "xyz" = none ∧
    from_message (c4Msg "xyz") = .panicked :=
  ⟨rfl, rfl, rfl⟩

/-- C4 (amended): `peer_asn` is not validated at decode time — decoding
succeeds for any string whatsoever; the digits check happens during
derivation, where a non-decimal ASN panics when a branch parses it and is
not even looked at when no branch is taken. -/
theorem C4_asn_unchecked_at_decode :
    (∀ s : String, decodeRISPacket (c4Json s) = .ok (.message (c4Msg s))) ∧
    (∀ (msg : RISMessage) (announce : RISAnnouncement),
      msg.ty = .UPDATE announce none → announce.path = none →
      from_message msg = .ok (some [])) ∧
    (∀ (msg : RISMessage) (announce : RISAnnouncement) (ws : List String),
      msg.ty = .UPDATE announce (some ws) → announce.path = none →
      parseU32Radix10 msg.peer_asn = none → from_message msg = .panicked) := by
  refine ⟨fun s => rfl, ?_, ?_⟩
  · intro msg announce hty hp
    rw [from_message_eq hty, announceStep_path_none hp]
    rfl
  · intro msg announce ws hty hp hasn
    rw [from_message_eq hty, announceStep_path_none hp]
    simp [withdrawStep, hasn]

/-- Witness: the amended C4 at the concrete `peer_asn = "xyz"` envelope. -/
theorem C4_asn_unchecked_at_decode_witness :
    decodeRISPacket (c4Json "xyz") = .ok (.message (c4Msg "xyz")) ∧
    from_message (c4Msg "xyz") = .panicked :=
  ⟨C4_asn_unchecked_at_decode.1 "xyz",
   C4_asn_unchecked_at_decode.2.2 (c4Msg "xyz") ⟨none, none, none, none⟩
     ["10.0.0.0/24"] rfl rfl rfl⟩

/-- C5, as stated, is false on both sides: with an AS-path but no
announcement-entries list derivation panics (`.as_ref().unwrap()` on `None`)
instead of returning a `MissingAnnouncementEntries` error (no such error
exists), and with an empty entries list it succeeds, emitting an `Announce`
with zero vectors. -/
theorem C5_claim_counterexample :
    from_message c5Msg = .panicked ∧
    from_message c5EmptyMsg = .ok (some [⟨1.0, 65000, .Announce [65001] []⟩]) :=
  ⟨rfl, rfl⟩

/-- C5 (amended): when the AS-path is present and the announcement-entries
list is absent, derivation panics; when the list is present but empty,
derivation succeeds with a single `Announce` event carrying no vectors. -/
theorem C5_missing_entries_panics (msg : RISMessage) (announce : RISAnnouncement)
    (w : Option (List String)) (p : List Nat) :
    (msg.ty = .UPDATE announce w → announce.path = some p →
      announce.announcements = none → from_message msg = .panicked) ∧
    (∀ asn, msg.ty = .UPDATE announce none → announce.path = some p →
      announce.announcements = some [] → parseU32Radix10 msg.peer_asn = some asn →
      from_message msg = .ok (some [⟨msg.timestamp, asn, .Announce p []⟩])) := by
  constructor
  · intro hty hp ha
    rw [from_message_eq hty]
    simp [announceStep, hp, ha]
  · intro asn hty hp ha hasn
    rw [from_message_eq hty]
    simp [announceStep, hp, ha, hasn, mapPanic, withdrawStep]

/-- Witness: the amended C5 at the two concrete envelopes. -/
theorem C5_missing_entries_panics_witness :
    from_message c5Msg = .panicked ∧
    from_message c5EmptyMsg =
      .ok (some [⟨c5EmptyMsg.timestamp, 65000, .Announce [65001] []⟩]) :=
  ⟨(C5_missing_entries_panics c5Msg ⟨some [65001], none, none, none⟩ none [65001]).1
      rfl rfl rfl,
   (C5_missing_entries_panics c5EmptyMsg ⟨some [65001], none, none, some []⟩
      none [65001]).2 65000 rfl rfl rfl rfl⟩

/-- An update is an announcement or a withdrawal, never both. -/
lemma isWithdraw_eq_false_of_isAnnounce {u : BGPUpdate}
    (h : isAnnounce u = true) : isWithdraw u = false := by
  cases hk : u.kind <;> simp [isAnnounce, isWithdraw, hk] at *

/-- C6: on a well-formed `UPDATE` envelope with an AS-path and a non-empty
announcement-entries list, derivation emits exactly one `Announce` event — it
heads the result, nothing else in the result is an `Announce`, its `as_path`
is the envelope's path verbatim, and its vectors correspond to the entries
one-to-one in order, pairing each entry's parsed next hop with its parsed
prefixes in order. -/
theorem C6_announce_event_faithful (msg : RISMessage) (announce : RISAnnouncement)
    (w : Option (List String)) (p : List Nat) (a : List AnnouncementEntry)
    (hty : msg.ty = .UPDATE announce w) (hp : announce.path = some p)
    (ha : announce.announcements = some a) (_hne : a ≠ [])
    (hwf : msgWF msg = true) :
    ∃ asn vs rest,
      parseU32Radix10 msg.peer_asn = some asn ∧
      from_message msg = .ok (some (⟨msg.timestamp, asn, .Announce p vs⟩ :: rest)) ∧
      rest.countP isAnnounce = 0 ∧
      vs.length = a.length ∧
      List.Forall₂ (fun e v => parseIpAddr e.next_hop = some v.next_hop ∧
        List.Forall₂ (fun s n => parseIpNet s = some n) e.prefixes v.prefixes) a vs := by
  have hwf2 : announceWF msg announce = true ∧ withdrawWF msg w = true := by
    have := hwf
    simp only [msgWF, hty, Bool.and_eq_true] at this
    exact this
  cases has : announceStep msg announce with
  | panicked =>
    have := announceStep_panicked_iff.mp has
    rw [hwf2.1] at this; cases this
  | ok res =>
    obtain ⟨a', vs, asn, ha', hm, hasn, hres⟩ := announceStep_ok_some hp has
    rw [ha] at ha'
    cases ha'
    have hfa : List.Forall₂ (fun e v => parseVector e = .ok v) a vs :=
      mapPanic_ok_forall₂ hm
    have hfa2 : List.Forall₂ (fun e v => parseIpAddr e.next_hop = some v.next_hop ∧
        List.Forall₂ (fun s n => parseIpNet s = some n) e.prefixes v.prefixes) a vs := by
      refine hfa.imp (fun e v h => ?_)
      obtain ⟨h1, h2⟩ := parseVector_ok_iff.mp h
      exact ⟨h1, (mapPanic_ok_forall₂ h2).imp (fun s n h3 => unwrapNet_ok_iff.mp h3)⟩
    have hlen : vs.length = a.length := hfa2.length_eq.symm
    subst hres
    cases w with
    | none =>
      refine ⟨asn, vs, [], hasn, ?_, rfl, hlen, hfa2⟩
      rw [from_message_eq hty, has]
      rfl
    | some ws =>
      have hwww : withdrawWF msg (some ws) = true := hwf2.2
      simp only [withdrawWF, Bool.and_eq_true, List.all_eq_true] at hwww
      obtain ⟨ps, hps⟩ : ∃ ps, mapPanic unwrapNet ws = .ok ps := by
        refine mapPanic_exists_ok (fun s hs => ?_)
        rw [Ne, unwrapNet_panicked_iff]
        have := hwww.2 s hs
        intro hnone
        rw [hnone] at this
        cases this
      refine ⟨asn, vs, [⟨msg.timestamp, asn, .Withdraw ps⟩], hasn, ?_, ?_, hlen, hfa2⟩
      · rw [from_message_eq hty, has]
        simp [withdrawStep, hasn, hps]
      · simp [isAnnounce]

/-- Witness: C6 at the spec's announce scenario envelope. -/
theorem C6_announce_event_faithful_witness :
    ∃ (asn : Nat) (vs : List AnnouncementVector) (rest : List BGPUpdate),
      parseU32Radix10 scenario1Msg.peer_asn = some asn ∧
      from_message scenario1Msg =
        .ok (some (⟨scenario1Msg.timestamp, asn, .Announce [65001] vs⟩ :: rest)) ∧
      rest.countP isAnnounce = 0 ∧
      vs.length = ([⟨"2.2.2.2", ["10.0.0.0/24"]⟩] : List AnnouncementEntry).length ∧
      List.Forall₂ (fun (e : AnnouncementEntry) (v : AnnouncementVector) =>
        parseIpAddr e.next_hop = some v.next_hop ∧
        List.Forall₂ (fun s n => parseIpNet s = some n) e.prefixes v.prefixes)
        [⟨"2.2.2.2", ["10.0.0.0/24"]⟩] vs :=
  C6_announce_event_faithful scenario1Msg
    ⟨some [65001], none, none, some [⟨"2.2.2.2", ["10.0.0.0/24"]⟩]⟩ none
    [65001] [⟨"2.2.2.2", ["10.0.0.0/24"]⟩] rfl rfl rfl (by decide) rfl

/-- C7: on a well-formed `UPDATE` envelope with a withdrawal list present —
whether or not an announcement block is also present — derivation emits
exactly one `Withdraw` event, at the end of the result, whose prefixes
correspond to the withdrawal strings one-to-one in order (duplicates
preserved). -/
theorem C7_withdraw_event_faithful (msg : RISMessage) (announce : RISAnnouncement)
    (ws : List String) (hty : msg.ty = .UPDATE announce (some ws))
    (hwf : msgWF msg = true) :
    ∃ asn ps res₀,
      parseU32Radix10 msg.peer_asn = some asn ∧
      from_message msg = .ok (some (res₀ ++ [⟨msg.timestamp, asn, .Withdraw ps⟩])) ∧
      res₀.countP isWithdraw = 0 ∧
      ps.length = ws.length ∧
      List.Forall₂ (fun s n => parseIpNet s = some n) ws ps := by
  have hwf2 : announceWF msg announce = true ∧ withdrawWF msg (some ws) = true := by
    have := hwf
    simp only [msgWF, hty, Bool.and_eq_true] at this
    exact this
  cases has : announceStep msg announce with
  | panicked =>
    have := announceStep_panicked_iff.mp has
    rw [hwf2.1] at this; cases this
  | ok res₀ =>
    have hww := hwf2.2
    simp only [withdrawWF, Bool.and_eq_true, List.all_eq_true] at hww
    obtain ⟨asn, hasn⟩ := Option.isSome_iff_exists.mp hww.1
    obtain ⟨ps, hps⟩ : ∃ ps, mapPanic unwrapNet ws = .ok ps := by
      refine mapPanic_exists_ok (fun s hs => ?_)
      rw [Ne, unwrapNet_panicked_iff]
      have := hww.2 s hs
      intro hnone
      rw [hnone] at this
      cases this
    have hfp : List.Forall₂ (fun s n => parseIpNet s = some n) ws ps :=
      (mapPanic_ok_forall₂ hps).imp (fun s n h => unwrapNet_ok_iff.mp h)
    have hall := announceStep_ok_all_announce has
    refine ⟨asn, ps, res₀, hasn, ?_, ?_, hfp.length_eq.symm, hfp⟩
    · rw [from_message_eq hty, has]
      simp [withdrawStep, hasn, hps]
    · rw [List.countP_eq_zero]
      intro u hu
      simp [isWithdraw_eq_false_of_isAnnounce (hall.2 u hu)]

/-- Witness: C7 at the spec's withdraw scenario envelope. -/
theorem C7_withdraw_event_faithful_witness :
    ∃ (asn : Nat) (ps : List IpNet) (res₀ : List BGPUpdate),
      parseU32Radix10 scenario2Msg.peer_asn = some asn ∧
      from_message scenario2Msg =
        .ok (some (res₀ ++ [⟨scenario2Msg.timestamp, asn, .Withdraw ps⟩])) ∧
      res₀.countP isWithdraw = 0 ∧
      ps.length = (["10.0.0.0/24"] : List String).length ∧
      List.Forall₂ (fun s n => parseIpNet s = some n) ["10.0.0.0/24"] ps :=
  C7_withdraw_event_faithful scenario2Msg ⟨none, none, none, none⟩
    ["10.0.0.0/24"] rfl rfl

/-- C8: derivation yields at most two events; with both the AS-path block
and the withdrawal list present a successful derivation is exactly
`[Announce, Withdraw]` in that order; with neither present it succeeds with
the empty sequence. -/
theorem C8_event_count :
    (∀ (msg : RISMessage) (res : List BGPUpdate),
      from_message msg = .ok (some res) → res.length ≤ 2) ∧
    (∀ (msg : RISMessage) (announce : RISAnnouncement) (ws : List String)
      (p : List Nat) (res : List BGPUpdate),
      msg.ty = .UPDATE announce (some ws) → announce.path = some p →
      from_message msg = .ok (some res) →
      ∃ u v, res = [u, v] ∧ isAnnounce u = true ∧ isWithdraw v = true) ∧
    (∀ (msg : RISMessage) (announce : RISAnnouncement),
      msg.ty = .UPDATE announce none → announce.path = none →
      from_message msg = .ok (some [])) := by
  refine ⟨?_, ?_, ?_⟩
  · intro msg res h
    cases hty : msg.ty with
    | UPDATE announce w =>
      rw [from_message_eq hty] at h
      cases has : announceStep msg announce with
      | panicked => rw [has] at h; cases h
      | ok res₀ =>
        rw [has] at h
        replace h : withdrawStep msg res₀ w = .ok (some res) := h
        have hlen := (announceStep_ok_all_announce has).1
        cases w with
        | none =>
          rw [withdrawStep_none] at h
          cases h
          omega
        | some ws =>
          obtain ⟨asn, ps, _, _, ho⟩ := withdrawStep_ok_some h
          injection ho with hres
          subst hres
          simp only [List.length_append, List.length_singleton]
          omega
  · intro msg announce ws p res hty hp h
    rw [from_message_eq hty] at h
    cases has : announceStep msg announce with
    | panicked => rw [has] at h; cases h
    | ok res₀ =>
      rw [has] at h
      replace h : withdrawStep msg res₀ (some ws) = .ok (some res) := h
      obtain ⟨a, vs, asn, _, _, _, hres₀⟩ := announceStep_ok_some hp has
      obtain ⟨asn', ps, _, _, ho⟩ := withdrawStep_ok_some h
      injection ho with hres
      subst hres
      subst hres₀
      exact ⟨⟨msg.timestamp, asn, .Announce p vs⟩,
        ⟨msg.timestamp, asn', .Withdraw ps⟩, rfl, rfl, rfl⟩
  · intro msg announce hty hp
    rw [from_message_eq hty, announceStep_path_none hp]
    rfl

/-- Witness: C8's both-present case at a concrete envelope. -/
theorem C8_event_count_witness :
    ∃ u v, ([⟨1.0, 65000, .Announce [65001] [⟨.v4 ⟨2, 2, 2, 2⟩, [.v4 ⟨10, 0, 0, 0⟩ 24]⟩]⟩,
             ⟨1.0, 65000, .Withdraw [.v4 ⟨10, 0, 0, 1⟩ 32]⟩] : List BGPUpdate) = [u, v] ∧
      isAnnounce u = true ∧ isWithdraw v = true :=
  C8_event_count.2.1 c8Msg
    ⟨some [65001], none, none, some [⟨"2.2.2.2", ["10.0.0.0/24"]⟩]⟩
    ["10.0.0.1/32"] [65001] _ rfl rfl rfl

/-- C9, as stated, is false: the §8 announce scenario renders to a line with
nine spaces of prefix padding (`\x7bprefix:<20\x7d` on an 11-character
prefix), not the ten-space line quoted in the spec; the withdraw scenario
line is as quoted. -/
theorem C9_claim_counterexample :
    decodeRISPacket scenario1Json = .ok (.message scenario1Msg) ∧
    from_message scenario1Msg = .ok (some [scenario1Update]) ∧
    updateLines scenario1Update = [" 65000|A 10.0.0.0/24         |65001 "] ∧
    (" 65000|A 10.0.0.0/24         |65001 " : String) ≠ " 65000|A 10.0.0.0/24          |65001 " :=
  ⟨rfl, rfl, rfl, by decide⟩

/-- C9 (amended): an `Announce` renders one line per announced prefix
(vectors outer, prefixes inner) of the form
`"\x7basn:>6\x7d|A \x7bprefix:<20\x7d|\x7bpath\x7d"` with the path as
`\x7b:<6\x7d`-formatted decimal AS numbers joined by single spaces in path
order (widths are minimums, not truncation); a `Withdraw` renders one line
per prefix of the form `"\x7basn:>6\x7d|W \x7bprefix:<20\x7d"`; the §8
announce scenario renders to the nine-space-padded line and the §8 withdraw
scenario renders exactly to the quoted line. -/
theorem C9_render_format :
    (∀ (ts : Float) (asn : Nat) (path : List Nat) (vectors : List AnnouncementVector),
      updateLines ⟨ts, asn, .Announce path vectors⟩ =
        (vectors.map (fun v => v.prefixes.map (fun p =>
          padLeft6 (natStr asn) ++ "|A " ++ padRight20 (ipNetStr p) ++ "|" ++
            String.intercalate " " (path.map (fun x => padRight6 (natStr x)))))).flatten ∧
      (updateLines ⟨ts, asn, .Announce path vectors⟩).length =
        (vectors.map (fun v => v.prefixes.length)).sum) ∧
    (∀ (ts : Float) (asn : Nat) (ps : List IpNet),
      updateLines ⟨ts, asn, .Withdraw ps⟩ =
        ps.map (fun p => padLeft6 (natStr asn) ++ "|W " ++ padRight20 (ipNetStr p)) ∧
      (updateLines ⟨ts, asn, .Withdraw ps⟩).length = ps.length) ∧
    (decodeRISPacket scenario1Json = .ok (.message scenario1Msg) ∧
      from_message scenario1Msg = .ok (some [scenario1Update]) ∧
      updateLines scenario1Update = [" 65000|A 10.0.0.0/24         |65001 "]) ∧
    (decodeRISPacket scenario2Json = .ok (.message scenario2Msg) ∧
      from_message scenario2Msg = .ok (some [scenario2Update]) ∧
      updateLines scenario2Update = [" 65000|W 10.0.0.0/24         "]) := by
  refine ⟨fun ts asn path vectors => ⟨rfl, ?_⟩,
          fun ts asn ps => ⟨rfl, by simp [updateLines]⟩,
          ⟨rfl, rfl, rfl⟩, ⟨rfl, rfl, rfl⟩⟩
  simp [updateLines, List.length_flatten, List.map_map, Function.comp_def, List.length_map]

/-- C10, as stated, is false in its universal part: `c10Json` decodes
successfully, yet `from_message` panics on it instead of returning
`Some(events)`. -/
theorem C10_claim_counterexample :
    decodeRISPacket c10Json = .ok (.message c10Msg) ∧
    from_message c10Msg = .panicked :=
  ⟨rfl, rfl⟩

/-- C10 (amended): the `None` branch of `from_message` is unreachable —
`UPDATE` is the only message kind the decoder can produce, so for every
decoded message the function either panics or returns `Some(events)`; a
caller that decodes then derives never observes `None`. -/
theorem C10_never_none (msg : RISMessage) : from_message msg ≠ .ok none := by
  cases hty : msg.ty with
  | UPDATE announce w =>
    rw [from_message_eq hty]
    cases has : announceStep msg announce with
    | panicked => simp
    | ok res =>
      cases w with
      | none =>
        intro h
        replace h : withdrawStep msg res none = .ok none := h
        rw [withdrawStep_none] at h
        cases h
      | some ws =>
        intro h
        replace h : withdrawStep msg res (some ws) = .ok none := h
        obtain ⟨asn, ps, _, _, ho⟩ := withdrawStep_ok_some h
        cases ho
    
/-- Witness: C10 at the withdraw scenario envelope, which also evaluates to
a concrete `Some` result. -/
theorem C10_never_none_witness :
    from_message scenario2Msg ≠ .ok none ∧
    from_message scenario2Msg = .ok (some [scenario2Update]) :=
  ⟨C10_never_none scenario2Msg, rfl⟩
